import Mathlib

/-!
Verification development for the Mandelbrot-Visualizer program
(src/X9Z3_Mandelbrot-Visualizer.py, a Web VPython / GlowScript script).

The script runs under GlowScript, i.e. it is transpiled to JavaScript
(the file is headed "Web VPython 3.2", binds handlers before their `def`s
— which CPython would reject — and calls MathJax).  Number semantics in
the embedding are therefore JS floats, modelled by ℚ; the one place where
this matters (a division whose denominator can be 0, in `resize_box`) is
modelled by an equivalent division-free comparison, documented there.

The embedding below follows the source function by function:
  * `colormaps`                      — lines 65–119
  * `split`                          — lines 122–156
  * `resize_box_corner`              — lines 246–269 (the per-sample
    aspect-ratio-locking step of `resize_box`)
  * `Mandelbrot.__init__`            — `mandelbrot_init`
  * `Mandelbrot.__load_new_mandelbrot` — pool/counter effects in
    `load_new_mandelbrot`; the per-pixel mathematics in `pixel_point`,
    `escape_steps` and `pixel_color`
  * `Mandelbrot.change_parameters`   — `change_parameters`
  * `Mandelbrot.__recycle_old_vertices` — `recycle_old_vertices`
  * `Mandelbrot.load_recent_dimensions` — `load_recent_dimensions`
  * `Mandelbrot.__load_fresh_objects` — `load_fresh_objects`
  * widget callbacks `recall_mandelbrot_dimensions`, `change_resolution`,
    `change_colormap`, `change_search_depth`, `change_image_dimensions`.

Pixel-geometry objects (VPython `vertex`/`quad`) are interchangeable;
only how many sit in each pool/active list matters, so the four lists
`rendered_vertices`, `existing_vertices`, `rendered_quads`,
`existing_quads` are modelled by their lengths.  Operations that pop
from an empty Python list (a fatal error) return `none`.
-/

set_option maxHeartbeats 1000000
set_option maxRecDepth 4096

-- ======================== Colormap module (lines 65–119) ====================

/-- RGB triple / 3-component vector, as VPython's `vec` restricted to the
components the colormap code reads and writes. -/
@[ext]
structure Vec3 where
  x : ℝ
  y : ℝ
  z : ℝ

/-- Source `colormaps(colors, cmap)`, lines 65–119: an `if/elif` chain on the
scheme name; every name other than the four explicitly tested ones takes the
final `else` (the `default` formula).  Python `**` with integer exponent is
`^ (n : ℕ)`; `colors.y**(1/6)` is a real-exponent power, modelled by `rpow`. -/
noncomputable def colormaps (colors : Vec3) (cmap : String) : Vec3 :=
  if cmap = "spectral" then
    ⟨|Real.sin (100 * colors.x + 1)|,
     Real.sin (100 * colors.y + 2),
     Real.sin (100 * colors.z + 3)⟩
  else if cmap = "inferno" then
    ⟨Real.sqrt colors.x,
     colors.y ^ (2 : ℕ),
     -5 * (colors.z - 0.2) ^ (2 : ℕ) + 0.2⟩
  else if cmap = "viridis" then
    ⟨Real.sin (colors.x + 0.5) ^ (16 : ℕ),
     colors.y,
     -3 * (colors.z - 0.38) ^ (2 : ℕ) + 0.6⟩
  else if cmap = "plasma" then
    ⟨Real.sin colors.x,
     colors.y ^ (10 : ℕ) + colors.y ^ ((1 : ℝ) / 6) - 0.8,
     -colors.z + 1⟩
  else
    ⟨Real.sin (colors.x + 0.9) ^ (30 : ℕ),
     Real.sin (colors.y + 0.97) ^ (80 : ℕ) * 0.9,
     -(((colors.z + 0.5) ^ (6 : ℕ)) - 0.8) ^ (2 : ℕ) + 1⟩

/-- Modelled from the spec (§4.1): the five fixed colormap formulas exactly as
the specification writes them, with an unknown scheme name falling back to the
`default` formula.  This is the specification-side definition that the
source-side `colormaps` is compared against (claim C4). -/
noncomputable def colorOfSpec (v : Vec3) (scheme : String) : Vec3 :=
  if scheme = "inferno" then
    ⟨Real.sqrt v.x, v.y ^ (2 : ℕ), 0.2 - 5 * (v.z - 0.2) ^ (2 : ℕ)⟩
  else if scheme = "viridis" then
    ⟨Real.sin (v.x + 0.5) ^ (16 : ℕ), v.y, 0.6 - 3 * (v.z - 0.38) ^ (2 : ℕ)⟩
  else if scheme = "plasma" then
    ⟨Real.sin v.x, v.y ^ (10 : ℕ) + v.y ^ ((1 : ℝ) / 6) - 0.8, 1 - v.z⟩
  else if scheme = "spectral" then
    ⟨|Real.sin (100 * v.x + 1)|, Real.sin (100 * v.y + 2), Real.sin (100 * v.z + 3)⟩
  else
    ⟨Real.sin (v.x + 0.9) ^ (30 : ℕ),
     0.9 * Real.sin (v.y + 0.97) ^ (80 : ℕ),
     1 - ((v.z + 0.5) ^ (6 : ℕ) - 0.8) ^ (2 : ℕ)⟩

-- ======================== split (lines 122–156) =============================

/-- Recursion of the source `split` loop (lines 147–155): walk the characters,
cutting at each separator, keeping empty words, and appending the final word. -/
def splitGo : List Char → Char → String → List String
  | [], _, current_word => [current_word]
  | s :: rest, separator, current_word =>
      if s = separator then current_word :: splitGo rest separator ""
      else splitGo rest separator (current_word.push s)

/-- Source `split(string, separator)`, lines 122–156.  The source separator is
a one-character string; it is modelled as a `Char`.  (The `string is None`
branch, which the program never exercises, is not modelled.) -/
def split (string : String) (separator : Char) : List String :=
  splitGo string.data separator ""

-- ================= Python float() on the tokens (line 477) ==================

/-- Numeric value of a list of decimal digit characters. -/
def digitsToNat (l : List Char) : ℕ :=
  l.foldl (fun acc c => 10 * acc + (c.toNat - 48)) 0

/-- Sign prefix of a Python float literal: an optional leading `+` or `-`. -/
def stripSign : List Char → Bool × List Char
  | c :: r => if c = '-' then (true, r) else if c = '+' then (false, r) else (false, c :: r)
  | [] => (false, [])

/-- Modelled from the spec (§6: "four comma-separated decimal numbers") and
Python's `float(item)` at line 477, the code that turns each token into a
number: the plain-decimal fragment of the `float()` grammar — optional
surrounding whitespace, optional sign, an integer part and/or a fractional
part (`"2"`, `"2."`, `".5"`, `"-2.5"`, …).  Exponents and `inf`/`nan`, which
the dimension strings of the program never use, are not modelled; the
dimension-entry theorem (C6) is additionally proved for an arbitrary parser.
Result: (negative?, integer digits, fraction digits, fraction length), or
`none` when the token is not numeric. -/
def pyFloatParts (s : String) : Option (Bool × ℕ × ℕ × ℕ) :=
  let cs := ((s.data.dropWhile fun c => c = ' ').reverse.dropWhile fun c => c = ' ').reverse
  let sg := stripSign cs
  let intPart := sg.2.takeWhile Char.isDigit
  let rest := sg.2.dropWhile Char.isDigit
  match rest with
  | [] =>
      if intPart = [] then none
      else some (sg.1, digitsToNat intPart, 0, 0)
  | c :: frac =>
      if c = '.' ∧ frac.all Char.isDigit ∧ (intPart ≠ [] ∨ frac ≠ []) then
        some (sg.1, digitsToNat intPart, digitsToNat frac, frac.length)
      else none

/-- The rational value of a parsed decimal token (see `pyFloatParts`). -/
def pyFloat? (s : String) : Option ℚ :=
  match pyFloatParts s with
  | none => none
  | some (neg, ip, fp, fl) =>
      some ((if neg then -1 else 1) * ((ip : ℚ) + (fp : ℚ) / 10 ^ fl))

-- ======================== State of the Mandelbrot object ====================

/-- An `image_dimensions` value `[x_min, x_max, y_min, y_max]`: the viewport
in the complex plane (source stores it as a 4-element list of floats). -/
@[ext]
structure Dims where
  x_min : ℚ
  x_max : ℚ
  y_min : ℚ
  y_max : ℚ
deriving DecidableEq

/-- The mutable state of the single `Mandelbrot` object (class at lines
515–788) that the claims are about: render parameters, the two history lists,
the `loaded` flag, and the sizes of the four object-recycling lists.
`renders_done` counts completed `__load_new_mandelbrot` runs (it is
instrumentation for "a render is triggered", not a source field). -/
@[ext]
structure MandelState where
  max_iter : ℕ
  dims : Dims
  height : ℕ
  width : ℕ
  colormap : String
  dimensions_undo_list : List Dims
  dimensions_redo_list : List Dims
  loaded : Bool
  existing_vertices : ℕ
  rendered_vertices : ℕ
  existing_quads : ℕ
  rendered_quads : ℕ
  renders_done : ℕ
deriving DecidableEq

/-- Python's `list.pop()`: remove and return the LAST element; popping an
empty list is an error (`none`). -/
def pyPop {α : Type} : List α → Option (List α × α)
  | [] => none
  | [a] => some ([], a)
  | a :: b :: rest =>
      match pyPop (b :: rest) with
      | none => none
      | some (l, x) => some (a :: l, x)

-- ======================== Object pool (lines 683–703, 746–788) ==============

/-- Source `__recycle_old_vertices` (lines 683–703): move every rendered
vertex and quad back into its reuse pool and clear the active lists. -/
def recycle_old_vertices (s : MandelState) : MandelState :=
  { s with
    existing_vertices := s.existing_vertices + s.rendered_vertices,
    rendered_vertices := 0,
    existing_quads := s.existing_quads + s.rendered_quads,
    rendered_quads := 0 }

/-- Source `__load_fresh_objects(fresh_load_size)` (lines 746–788): the loop
creates `fresh_load_size` vertices, and alongside each one a quad as long as
the quad pool is still below `(height - 1) * width`.  A negative
`fresh_load_size` makes `range(...)` empty, which the ℕ argument (truncated
subtraction at the call site) models. -/
def load_fresh_objects : ℕ → MandelState → MandelState
  | 0, s => s
  | n + 1, s =>
      load_fresh_objects n
        { s with
          existing_vertices := s.existing_vertices + 1,
          existing_quads :=
            if s.existing_quads < (s.height - 1) * s.width then s.existing_quads + 1
            else s.existing_quads }

/-- Source `__load_new_mandelbrot` (lines 562–639), pool effect: pop one
vertex per pixel (`height * width` pops) and one quad per pixel with
`px > 0 ∧ py > 0` (`(height-1) * (width-1)` pops) from the pools into the
active lists, then set `loaded = True`.  A pop from an exhausted pool is a
fatal Python error, modelled by `none`.  The per-pixel mathematics of the same
loop is modelled separately by `pixel_point`/`escape_steps`/`pixel_color`. -/
def load_new_mandelbrot (s : MandelState) : Option MandelState :=
  if s.height * s.width ≤ s.existing_vertices ∧
     (s.height - 1) * (s.width - 1) ≤ s.existing_quads then
    some { s with
      existing_vertices := s.existing_vertices - s.height * s.width,
      rendered_vertices := s.rendered_vertices + s.height * s.width,
      existing_quads := s.existing_quads - (s.height - 1) * (s.width - 1),
      rendered_quads := s.rendered_quads + (s.height - 1) * (s.width - 1),
      loaded := true,
      renders_done := s.renders_done + 1 }
  else none

-- ======================== change_parameters (lines 641–681) =================

/-- Source `Mandelbrot.change_parameters` (lines 641–681): clear `loaded`,
recycle all active geometry, install the new parameters, append the new
dimensions to the undo list (the redo list is NOT touched), grow the vertex
pool by `height*width - len(existing_vertices)` fresh objects, and re-render. -/
def change_parameters (max_iter : ℕ) (image_dimensions : Dims) (resolution : ℕ × ℕ)
    (colormap : String) (s : MandelState) : Option MandelState :=
  let s1 := recycle_old_vertices { s with loaded := false }
  let s2 := { s1 with
    max_iter := max_iter,
    dims := image_dimensions,
    height := resolution.1,
    width := resolution.2,
    colormap := colormap,
    dimensions_undo_list := s1.dimensions_undo_list ++ [image_dimensions] }
  let s3 := load_fresh_objects (s2.height * s2.width - s2.existing_vertices) s2
  load_new_mandelbrot s3

-- ======================== load_recent_dimensions (lines 705–743) ============

/-- Source `Mandelbrot.load_recent_dimensions` (lines 705–743).  Note that
`self.loaded = False` is executed BEFORE the emptiness checks, so the
"nothing to do" paths return with `loaded` still `False`. -/
def load_recent_dimensions (redo : Bool) (max_iter : ℕ) (resolution : ℕ × ℕ)
    (colormap : String) (s : MandelState) : Option MandelState :=
  let s0 := { s with loaded := false }
  if redo then
    match pyPop s0.dimensions_redo_list with
    | none => some s0
    | some (rest, image_dimensions_to_load) =>
        change_parameters max_iter image_dimensions_to_load resolution colormap
          { s0 with dimensions_redo_list := rest }
  else
    if s0.dimensions_undo_list.length ≤ 1 then some s0
    else
      match pyPop s0.dimensions_undo_list with
      | none => none
      | some (rest1, top) =>
          match pyPop rest1 with
          | none => none
          | some (rest2, image_dimensions_to_load) =>
              change_parameters max_iter image_dimensions_to_load resolution colormap
                { s0 with
                  dimensions_undo_list := rest2,
                  dimensions_redo_list := s0.dimensions_redo_list ++ [top] }

-- ======================== Widget callbacks (lines 301–494) ==================

/-- Source `recall_mandelbrot_dimensions` (lines 301–352), the shared
Undo/Redo button callback without its button-recoloring UI feedback:
no-op unless loaded; no-op when there is nothing to undo AND nothing to redo;
otherwise `load_recent_dimensions` with the current settings preserved. -/
def recall_mandelbrot_dimensions (redo : Bool) (s : MandelState) : Option MandelState :=
  if s.loaded = false then some s
  else if s.dimensions_undo_list.length = 1 ∧ s.dimensions_redo_list.length = 0 then some s
  else load_recent_dimensions redo s.max_iter (s.height, s.width) s.colormap s

/-- The resolution presets `resolution_choices` (lines 801–803), as
`(height, width)` pairs — `self.height = resolution[0]`. -/
def resolution_choice (i : Fin 6) : ℕ × ℕ :=
  match i.val with
  | 0 => (30, 45)
  | 1 => (60, 90)
  | 2 => (120, 180)
  | 3 => (180, 270)
  | 4 => (240, 360)
  | _ => (480, 720)

/-- Source `change_resolution` (lines 355–382): keep `max_iter`/colormap, POP
the latest dimensions off the undo list, apply the chosen resolution preset. -/
def change_resolution (index : Fin 6) (s : MandelState) : Option MandelState :=
  if s.loaded = false then some s
  else
    match pyPop s.dimensions_undo_list with
    | none => none
    | some (rest, image_dimensions) =>
        change_parameters s.max_iter image_dimensions (resolution_choice index) s.colormap
          { s with dimensions_undo_list := rest }

/-- Source `change_colormap` (lines 385–411): keep `max_iter`/resolution, POP
the latest dimensions off the undo list, apply the selected colormap. -/
def change_colormap (selected : String) (s : MandelState) : Option MandelState :=
  if s.loaded = false then some s
  else
    match pyPop s.dimensions_undo_list with
    | none => none
    | some (rest, image_dimensions) =>
        change_parameters s.max_iter image_dimensions (s.height, s.width) selected
          { s with dimensions_undo_list := rest }

/-- Source `change_search_depth` (lines 414–446): reject a depth outside
`[1, 1000]` with a printed message and no state change; otherwise POP the
latest dimensions off the undo list and re-render with the new `max_iter`. -/
def change_search_depth (number : ℤ) (s : MandelState) : Option MandelState :=
  if s.loaded = false then some s
  else if number < 1 ∨ number > 1000 then some s
  else
    match pyPop s.dimensions_undo_list with
    | none => none
    | some (rest, image_dimensions) =>
        change_parameters number.toNat image_dimensions (s.height, s.width) s.colormap
          { s with dimensions_undo_list := rest }

/-- Validation pipeline of `change_image_dimensions` (lines 474–486): split the
text on commas, convert every token with `float` (any failure is caught and
rejected), require exactly four numbers with `x_min < x_max` and
`y_min < y_max`.  Parameterised by the float parser (`pyFloat?` models the
fragment the program uses; the C6 theorem holds for every parser). -/
def parse_image_dimensions (parse : String → Option ℚ) (text : String) : Option Dims :=
  match (split text ',').mapM parse with
  | none => none
  | some [a, b, c, d] => if a ≥ b ∨ c ≥ d then none else some ⟨a, b, c, d⟩
  | some _ => none

/-- Source `change_image_dimensions` (lines 449–494).  The `Bool` records
whether `"Invalid dimensions."` was printed. -/
def change_image_dimensions (parse : String → Option ℚ) (text : String)
    (s : MandelState) : Option (MandelState × Bool) :=
  if s.loaded = false then some (s, false)
  else
    match parse_image_dimensions parse text with
    | none => some (s, true)
    | some image_dimensions =>
        (change_parameters s.max_iter image_dimensions (s.height, s.width) s.colormap s).map
          fun s' => (s', false)

-- ======================== Mandelbrot.__init__ (lines 516–560) ===============

/-- Source `Mandelbrot.__init__` (lines 516–560): set the parameters, start
with empty pools, undo list `[image_dimensions]` and empty redo list, preload
`height * width` fresh objects, then render. -/
def mandelbrot_init (max_iter : ℕ) (image_dimensions : Dims) (resolution : ℕ × ℕ)
    (colormap : String) : Option MandelState :=
  let s : MandelState :=
    ⟨max_iter, image_dimensions, resolution.1, resolution.2, colormap,
     [image_dimensions], [], false, 0, 0, 0, 0, 0⟩
  load_new_mandelbrot (load_fresh_objects (s.height * s.width) s)

-- ======================== resize_box (lines 246–269) ========================

/-- Source `resize_box`, the per-sample aspect-ratio-locking step (lines
246–269): given the drag start point and the current pointer position, the
aspect-locked opposite corner of the white selection box.

The source compares `current_box_height / current_box_width > 3 / 2` under
GlowScript/JS float semantics, where for `h > 0` the value `h / 0` is `+∞`
(so the comparison is true) and `0 / 0` is `NaN` (so it is false); for
`w ≥ 0, h ≥ 0` that comparison holds exactly when `2 * h > 3 * w`, which is
the division-free form used here. -/
def resize_box_corner (starting_mouse_pos current_mouse_pos : ℚ × ℚ) : ℚ × ℚ :=
  let current_box_width := |current_mouse_pos.1 - starting_mouse_pos.1|
  let current_box_height := |current_mouse_pos.2 - starting_mouse_pos.2|
  let corner_sign_x : ℚ := if current_mouse_pos.1 > starting_mouse_pos.1 then 1 else -1
  let corner_sign_y : ℚ := if current_mouse_pos.2 > starting_mouse_pos.2 then 1 else -1
  if 2 * current_box_height > 3 * current_box_width then
    (starting_mouse_pos.1 + corner_sign_x * current_box_height * (3 / 2),
     current_mouse_pos.2)
  else
    (current_mouse_pos.1,
     starting_mouse_pos.2 + corner_sign_y * current_box_width * (2 / 3))

-- ======================== Escape-time engine (lines 592–613) ================

/-- Pixel-to-complex-plane mapping of `__load_new_mandelbrot` (lines 577–596):
`c = (center_x + (px - width/2) * zoom_x, center_y + (py - height/2) * zoom_y)`. -/
def pixel_point (vp : Dims) (height width : ℕ) (px py : ℕ) : ℚ × ℚ :=
  let center_x := (vp.x_min + vp.x_max) / 2
  let center_y := (vp.y_min + vp.y_max) / 2
  let zoom_x := (vp.x_max - vp.x_min) / (width : ℚ)
  let zoom_y := (vp.y_max - vp.y_min) / (height : ℚ)
  (center_x + ((px : ℚ) - (width : ℚ) / 2) * zoom_x,
   center_y + ((py : ℚ) - (height : ℚ) / 2) * zoom_y)

/-- The escape-time loop of `__load_new_mandelbrot` (lines 598–606):
`while sqrt(z_re**2 + z_im**2) <= 2 and n < max_iter`, iterating
`z ← z² + c` and counting `n`.  The fuel is `max_iter - n`, so `fuel = 0`
is `n = max_iter`; the guard `sqrt(z_re²+z_im²) ≤ 2` is written as
`z_re² + z_im² ≤ 4` (equivalent, as the radicand is nonnegative). -/
def escape_steps : ℕ → ℚ → ℚ → ℚ → ℚ → ℕ
  | 0, _, _, _, _ => 0
  | fuel + 1, z_re, z_im, c_re, c_im =>
      if z_re ^ 2 + z_im ^ 2 ≤ 4 then
        escape_steps fuel (z_re * z_re - z_im * z_im + c_re) (2 * z_re * z_im + c_im)
          c_re c_im + 1
      else 0

/-- Escape-time count of a point `c`, starting from `z = 0` with `n = 0`. -/
def escape_count (max_iter : ℕ) (c_re c_im : ℚ) : ℕ :=
  escape_steps max_iter 0 0 c_re c_im

/-- Colour assignment of `__load_new_mandelbrot` (lines 608–613): interior
points (`n == max_iter`) are pure black; otherwise `vec(1,1,1) * (n/max_iter)`
is fed through the selected colormap. -/
noncomputable def pixel_color (max_iter n : ℕ) (cmap : String) : Vec3 :=
  if n = max_iter then ⟨0, 0, 0⟩
  else colormaps ⟨(n : ℝ) / max_iter, (n : ℝ) / max_iter, (n : ℝ) / max_iter⟩ cmap

-- ======================== User-visible operations ===========================

/-- The interaction entry points that mutate the `Mandelbrot` object: a
drag-selection zoom (`resize_box`, which passes the CURRENT `max_iter`,
resolution and colormap together with the new dimensions), the Undo/Redo
buttons, and the four widget callbacks. -/
inductive UserOp where
  | zoom (image_dimensions : Dims)
  | undoRedo (redo : Bool)
  | depth (number : ℤ)
  | cmapSel (selected : String)
  | resSel (index : Fin 6)
  | dimsText (text : String)

/-- Effect of one user operation on the state.  `resize_box` (lines 168–244)
returns immediately unless `loaded`, and on mouse release calls
`change_parameters` with the current settings and the selected dimensions. -/
def apply_op : UserOp → MandelState → Option MandelState
  | .zoom d, s =>
      if s.loaded = false then some s
      else change_parameters s.max_iter d (s.height, s.width) s.colormap s
  | .undoRedo r, s => recall_mandelbrot_dimensions r s
  | .depth n, s => change_search_depth n s
  | .cmapSel c, s => change_colormap c s
  | .resSel i, s => change_resolution i s
  | .dimsText t, s => (change_image_dimensions pyFloat? t s).map Prod.fst

/-- Run a sequence of user operations, stopping at a fatal error. -/
def run_ops : List UserOp → MandelState → Option MandelState
  | [], s => some s
  | op :: rest, s =>
      match apply_op op s with
      | none => none
      | some s' => run_ops rest s'

-- ======================== Basic lemmas ======================================

theorem pyPop_append {α : Type} (t : List α) (a : α) : pyPop (t ++ [a]) = some (t, a) := by
  induction t with
  | nil => rfl
  | cons x xs ih =>
      cases xs with
      | nil => simp [pyPop] at ih ⊢
      | cons y ys => simp_all [pyPop]

theorem pyPop_eq_some {α : Type} {l t : List α} {a : α}
    (h : pyPop l = some (t, a)) : l = t ++ [a] := by
  induction l generalizing t with
  | nil => simp [pyPop] at h
  | cons x xs ih =>
      cases xs with
      | nil =>
          simp only [pyPop, Option.some.injEq, Prod.mk.injEq] at h
          obtain ⟨rfl, rfl⟩ := h
          rfl
      | cons y ys =>
          rw [pyPop] at h
          cases hp : pyPop (y :: ys) with
          | none => rw [hp] at h; simp at h
          | some p =>
              obtain ⟨l', b⟩ := p
              rw [hp] at h
              simp only [Option.some.injEq, Prod.mk.injEq] at h
              obtain ⟨rfl, rfl⟩ := h
              rw [ih hp]
              rfl

theorem pyPop_of_ne_nil {α : Type} {l : List α} (h : l ≠ []) :
    ∃ t a, pyPop l = some (t, a) ∧ l = t ++ [a] := by
  induction l with
  | nil => exact absurd rfl h
  | cons x xs ih =>
      cases xs with
      | nil => exact ⟨[], x, rfl, rfl⟩
      | cons y ys =>
          obtain ⟨t, a, hp, he⟩ := ih (by simp)
          refine ⟨x :: t, a, ?_, by simp [he]⟩
          rw [pyPop, hp]

theorem load_fresh_objects_eq (n : ℕ) (s : MandelState) :
    load_fresh_objects n s =
      { s with
        existing_vertices := s.existing_vertices + n,
        existing_quads :=
          s.existing_quads +
            min n ((s.height - 1) * s.width - s.existing_quads) } := by
  induction n generalizing s with
  | zero => simp [load_fresh_objects]
  | succ n ih =>
      rw [load_fresh_objects, ih]
      ext1 <;> simp <;> (try split_ifs) <;> omega

/-- Closed form of `change_parameters`: with `tV`/`tQ` the total vertex/quad
counts, the pool is grown to `max tV (h*w)` vertices and at most `(h-1)*w`
quads, and the render succeeds when it leaves enough quads to pop. -/
theorem change_parameters_eq (m : ℕ) (d : Dims) (r : ℕ × ℕ) (c : String) (s : MandelState) :
    change_parameters m d r c s =
      (if (r.1 - 1) * (r.2 - 1) ≤
            s.existing_quads + s.rendered_quads +
              min (r.1 * r.2 - (s.existing_vertices + s.rendered_vertices))
                ((r.1 - 1) * r.2 - (s.existing_quads + s.rendered_quads)) then
        some ⟨m, d, r.1, r.2, c,
              s.dimensions_undo_list ++ [d], s.dimensions_redo_list, true,
              (s.existing_vertices + s.rendered_vertices +
                 (r.1 * r.2 - (s.existing_vertices + s.rendered_vertices))) - r.1 * r.2,
              r.1 * r.2,
              (s.existing_quads + s.rendered_quads +
                 min (r.1 * r.2 - (s.existing_vertices + s.rendered_vertices))
                   ((r.1 - 1) * r.2 - (s.existing_quads + s.rendered_quads))) -
                (r.1 - 1) * (r.2 - 1),
              (r.1 - 1) * (r.2 - 1),
              s.renders_done + 1⟩
       else none) := by
  simp only [change_parameters, recycle_old_vertices, load_new_mandelbrot,
    load_fresh_objects_eq]
  split_ifs <;> first
  | rfl
  | (exfalso; omega)
  | (simp only [Option.some.injEq]; ext1 <;> simp <;> omega)

/-- Non-pool fields of a successful `change_parameters`. -/
theorem change_parameters_fields {m : ℕ} {d : Dims} {r : ℕ × ℕ} {c : String}
    {s s' : MandelState} (h : change_parameters m d r c s = some s') :
    s'.max_iter = m ∧ s'.dims = d ∧ s'.height = r.1 ∧ s'.width = r.2 ∧
    s'.colormap = c ∧
    s'.dimensions_undo_list = s.dimensions_undo_list ++ [d] ∧
    s'.dimensions_redo_list = s.dimensions_redo_list ∧
    s'.loaded = true ∧ s'.renders_done = s.renders_done + 1 := by
  rw [change_parameters_eq] at h
  split at h
  · obtain rfl := Option.some.inj h
    simp
  · exact absurd h (by simp)

/-- Total object counts after a successful `change_parameters`. -/
theorem change_parameters_totals {m : ℕ} {d : Dims} {r : ℕ × ℕ} {c : String}
    {s s' : MandelState} (h : change_parameters m d r c s = some s') :
    s'.existing_vertices + s'.rendered_vertices =
      s.existing_vertices + s.rendered_vertices +
        (r.1 * r.2 - (s.existing_vertices + s.rendered_vertices)) ∧
    s'.existing_quads + s'.rendered_quads =
      s.existing_quads + s.rendered_quads +
        min (r.1 * r.2 - (s.existing_vertices + s.rendered_vertices))
          ((r.1 - 1) * r.2 - (s.existing_quads + s.rendered_quads)) := by
  rw [change_parameters_eq] at h
  split at h
  next hc =>
    obtain rfl := Option.some.inj h
    constructor <;> simp <;> omega
  · exact absurd h (by simp)

/-- `change_parameters` never shrinks the total vertex or quad count. -/
theorem change_parameters_mono {m : ℕ} {d : Dims} {r : ℕ × ℕ} {c : String}
    {s s' : MandelState} (h : change_parameters m d r c s = some s') :
    s.existing_vertices + s.rendered_vertices ≤
      s'.existing_vertices + s'.rendered_vertices ∧
    s.existing_quads + s.rendered_quads ≤
      s'.existing_quads + s'.rendered_quads := by
  obtain ⟨h1, h2⟩ := change_parameters_totals h
  omega

-- ======================== Pool invariant over the presets ===================

/-- Vertex count of preset `i`: `height * width`. -/
def pV (i : Fin 6) : ℕ := (resolution_choice i).1 * (resolution_choice i).2

/-- Quad-pool target of preset `i`: `(height - 1) * width`. -/
def pQ (i : Fin 6) : ℕ := ((resolution_choice i).1 - 1) * (resolution_choice i).2

/-- Reachable-state invariant: the total geometry counts are exactly those of
some preset (the largest ever applied), the current resolution is a preset,
and the undo list is never empty. -/
def PoolInv (s : MandelState) : Prop :=
  (∃ m : Fin 6,
      s.existing_vertices + s.rendered_vertices = pV m ∧
      s.existing_quads + s.rendered_quads = pQ m) ∧
  (∃ k : Fin 6, (s.height, s.width) = resolution_choice k) ∧
  s.dimensions_undo_list ≠ []

/-- Arithmetic facts about the six presets that make every render succeed:
growing from the totals of preset `m` to resolution `k` yields enough quads
for the `(h-1)*(w-1)` quad pops, and moves the totals to preset `max m k`. -/
theorem preset_facts : ∀ m k : Fin 6,
    ((resolution_choice k).1 - 1) * ((resolution_choice k).2 - 1) ≤
      pQ m + min (pV k - pV m) (pQ k - pQ m) ∧
    pV m + (pV k - pV m) = pV (max m k) ∧
    pQ m + min (pV k - pV m) (pQ k - pQ m) = pQ (max m k) := by decide

/-- From an invariant state, `change_parameters` at any preset resolution
succeeds and re-establishes the invariant. -/
theorem change_parameters_preset (m' : ℕ) (d : Dims) (k : Fin 6) (c : String)
    {s : MandelState} (mm : Fin 6)
    (hV : s.existing_vertices + s.rendered_vertices = pV mm)
    (hQ : s.existing_quads + s.rendered_quads = pQ mm) :
    ∃ s', change_parameters m' d (resolution_choice k) c s = some s' ∧ PoolInv s' := by
  have hf := preset_facts mm k
  simp only [pV, pQ] at hf
  rw [change_parameters_eq, hV, hQ]
  simp only [pV, pQ]
  rw [if_pos (by omega)]
  refine ⟨_, rfl, ?_, ⟨k, rfl⟩, by simp⟩
  refine ⟨max mm k, ?_, ?_⟩ <;> simp only [pV, pQ] <;> omega

/-- `load_recent_dimensions` never shrinks the total geometry counts. -/
theorem load_recent_dimensions_mono {r : Bool} {mi : ℕ} {res : ℕ × ℕ} {cm : String}
    {s s' : MandelState} (h : load_recent_dimensions r mi res cm s = some s') :
    s.existing_vertices + s.rendered_vertices ≤
      s'.existing_vertices + s'.rendered_vertices ∧
    s.existing_quads + s.rendered_quads ≤
      s'.existing_quads + s'.rendered_quads := by
  simp only [load_recent_dimensions] at h
  split at h
  · split at h
    · obtain rfl := Option.some.inj h
      constructor <;> simp
    · have := change_parameters_mono h
      simpa using this
  · split at h
    · obtain rfl := Option.some.inj h
      constructor <;> simp
    · split at h
      · exact absurd h (by simp)
      · split at h
        · exact absurd h (by simp)
        · have := change_parameters_mono h
          simpa using this

/-- No single user operation shrinks the total geometry counts. -/
theorem apply_op_mono {op : UserOp} {s s' : MandelState} (h : apply_op op s = some s') :
    s.existing_vertices + s.rendered_vertices ≤
      s'.existing_vertices + s'.rendered_vertices ∧
    s.existing_quads + s.rendered_quads ≤
      s'.existing_quads + s'.rendered_quads := by
  cases op with
  | zoom d =>
      rw [apply_op] at h
      split at h
      · obtain rfl := Option.some.inj h; constructor <;> simp
      · exact change_parameters_mono h
  | undoRedo r =>
      rw [apply_op, recall_mandelbrot_dimensions] at h
      split at h
      · obtain rfl := Option.some.inj h; constructor <;> simp
      · split at h
        · obtain rfl := Option.some.inj h; constructor <;> simp
        · exact load_recent_dimensions_mono h
  | depth n =>
      rw [apply_op, change_search_depth] at h
      split at h
      · obtain rfl := Option.some.inj h; constructor <;> simp
      · split at h
        · obtain rfl := Option.some.inj h; constructor <;> simp
        · split at h
          · exact absurd h (by simp)
          · have := change_parameters_mono h
            simpa using this
  | cmapSel c =>
      rw [apply_op, change_colormap] at h
      split at h
      · obtain rfl := Option.some.inj h; constructor <;> simp
      · split at h
        · exact absurd h (by simp)
        · have := change_parameters_mono h
          simpa using this
  | resSel i =>
      rw [apply_op, change_resolution] at h
      split at h
      · obtain rfl := Option.some.inj h; constructor <;> simp
      · split at h
        · exact absurd h (by simp)
        · have := change_parameters_mono h
          simpa using this
  | dimsText t =>
      rw [apply_op, change_image_dimensions] at h
      split at h
      · simp at h
        obtain rfl := h
        constructor <;> simp
      · split at h
        · simp at h
          obtain rfl := h
          constructor <;> simp
        · rename_i d hd
          cases hc : change_parameters s.max_iter d (s.height, s.width) s.colormap s with
          | none => rw [hc] at h; simp at h
          | some s2 =>
              rw [hc] at h
              simp at h
              obtain rfl := h
              exact change_parameters_mono hc

/-- `run_ops` never shrinks the total geometry counts (claim C8, part one). -/
theorem run_ops_mono {ops : List UserOp} {s s' : MandelState}
    (h : run_ops ops s = some s') :
    s.existing_vertices + s.rendered_vertices ≤
      s'.existing_vertices + s'.rendered_vertices ∧
    s.existing_quads + s.rendered_quads ≤
      s'.existing_quads + s'.rendered_quads := by
  induction ops generalizing s with
  | nil =>
      rw [run_ops] at h
      obtain rfl := Option.some.inj h
      exact ⟨le_refl _, le_refl _⟩
  | cons op rest ih =>
      rw [run_ops] at h
      cases ha : apply_op op s with
      | none => rw [ha] at h; simp at h
      | some s1 =>
          rw [ha] at h
          have h1 := apply_op_mono ha
          have h2 := ih h
          omega

/-- From an invariant state, `load_recent_dimensions` at a preset resolution
succeeds and preserves the invariant. -/
theorem load_recent_dimensions_preserves (r : Bool) (mi : ℕ) (k : Fin 6) (cm : String)
    {s : MandelState} (hInv : PoolInv s) :
    ∃ s', load_recent_dimensions r mi (resolution_choice k) cm s = some s' ∧ PoolInv s' := by
  obtain ⟨⟨mm, hV, hQ⟩, hpre, hundo⟩ := hInv
  simp only [load_recent_dimensions]
  split
  · split
    · exact ⟨_, rfl, ⟨mm, hV, hQ⟩, hpre, hundo⟩
    · exact change_parameters_preset mi _ k cm mm hV hQ
  · split
    · exact ⟨_, rfl, ⟨mm, hV, hQ⟩, hpre, hundo⟩
    · rename_i hlen
      have hlen2 : ¬ s.dimensions_undo_list.length ≤ 1 := by simpa using hlen
      obtain ⟨t1, a1, hp1, he1⟩ := pyPop_of_ne_nil hundo
      have ht1 : t1 ≠ [] := by
        intro hnil
        rw [he1, hnil] at hlen2
        simp at hlen2
      obtain ⟨t2, a2, hp2, he2⟩ := pyPop_of_ne_nil ht1
      simp only [hp1]
      simp only [hp2]
      exact change_parameters_preset mi _ k cm mm hV hQ

/-- Every user operation succeeds from an invariant state and preserves the
invariant: no acquire from the pools can ever fail. -/
theorem apply_op_preserves (op : UserOp) {s : MandelState} (hInv : PoolInv s) :
    ∃ s', apply_op op s = some s' ∧ PoolInv s' := by
  obtain ⟨⟨mm, hV, hQ⟩, ⟨k0, hres⟩, hundo⟩ := hInv
  have hInv' : PoolInv s := ⟨⟨mm, hV, hQ⟩, ⟨k0, hres⟩, hundo⟩
  cases op with
  | zoom d =>
      rw [apply_op]
      split
      · exact ⟨s, rfl, hInv'⟩
      · rw [hres]
        exact change_parameters_preset s.max_iter d k0 s.colormap mm hV hQ
  | undoRedo r =>
      rw [apply_op, recall_mandelbrot_dimensions]
      split
      · exact ⟨s, rfl, hInv'⟩
      · split
        · exact ⟨s, rfl, hInv'⟩
        · rw [hres]
          exact load_recent_dimensions_preserves r s.max_iter k0 s.colormap hInv'
  | depth n =>
      rw [apply_op, change_search_depth]
      split
      · exact ⟨s, rfl, hInv'⟩
      · split
        · exact ⟨s, rfl, hInv'⟩
        · obtain ⟨t1, a1, hp1, he1⟩ := pyPop_of_ne_nil hundo
          simp only [hp1]
          rw [hres]
          exact change_parameters_preset n.toNat a1 k0 s.colormap mm hV hQ
  | cmapSel c =>
      rw [apply_op, change_colormap]
      split
      · exact ⟨s, rfl, hInv'⟩
      · obtain ⟨t1, a1, hp1, he1⟩ := pyPop_of_ne_nil hundo
        simp only [hp1]
        rw [hres]
        exact change_parameters_preset s.max_iter a1 k0 c mm hV hQ
  | resSel i =>
      rw [apply_op, change_resolution]
      split
      · exact ⟨s, rfl, hInv'⟩
      · obtain ⟨t1, a1, hp1, he1⟩ := pyPop_of_ne_nil hundo
        simp only [hp1]
        exact change_parameters_preset s.max_iter a1 i s.colormap mm hV hQ
  | dimsText t =>
      rw [apply_op, change_image_dimensions]
      split
      · exact ⟨s, rfl, hInv'⟩
      · split
        · exact ⟨s, rfl, hInv'⟩
        · rename_i d hd
          rw [hres]
          obtain ⟨s2, hcp, inv2⟩ :=
            change_parameters_preset s.max_iter d k0 s.colormap mm hV hQ
          exact ⟨s2, by rw [hcp]; rfl, inv2⟩

/-- A whole operation sequence succeeds from an invariant state. -/
theorem run_ops_preserves (ops : List UserOp) {s : MandelState} (hInv : PoolInv s) :
    ∃ s', run_ops ops s = some s' ∧ PoolInv s' := by
  induction ops generalizing s with
  | nil => exact ⟨s, rfl, hInv⟩
  | cons op rest ih =>
      obtain ⟨s1, h1, hInv1⟩ := apply_op_preserves op hInv
      obtain ⟨s2, h2, hInv2⟩ := ih hInv1
      exact ⟨s2, by rw [run_ops, h1]; exact h2, hInv2⟩

/-- Per-preset facts for `__init__`: the quad pool reaches its
`(height-1)*width` target (which is below `height*width`), enough for the
`(height-1)*(width-1)` quads a render pops. -/
theorem preset_init_facts : ∀ k : Fin 6,
    ((resolution_choice k).1 - 1) * ((resolution_choice k).2 - 1) ≤ pQ k ∧
    pQ k ≤ pV k := by decide

/-- `Mandelbrot.__init__` at any preset resolution succeeds and establishes
the pool invariant. -/
theorem mandelbrot_init_inv (m : ℕ) (d : Dims) (k : Fin 6) (c : String) :
    ∃ s0, mandelbrot_init m d (resolution_choice k) c = some s0 ∧ PoolInv s0 := by
  have hf := preset_init_facts k
  simp only [pV, pQ] at hf
  rw [mandelbrot_init, load_fresh_objects_eq, load_new_mandelbrot]
  simp only [pV, pQ]
  rw [if_pos (by constructor <;> simp <;> omega)]
  refine ⟨_, rfl, ⟨k, ?_, ?_⟩, ⟨k, rfl⟩, by simp⟩ <;> simp only [pV, pQ] <;> simp <;> omega

-- ======================== Claim theorems ====================================

theorem escape_steps_le (fuel : ℕ) :
    ∀ z_re z_im c_re c_im : ℚ, escape_steps fuel z_re z_im c_re c_im ≤ fuel := by
  induction fuel with
  | zero => intro _ _ _ _; simp [escape_steps]
  | succ n ih =>
      intro z_re z_im c_re c_im
      rw [escape_steps]
      split
      · exact Nat.succ_le_succ (ih _ _ _ _)
      · exact Nat.zero_le _

/-- C3: for every pixel of every render, the escape-time count `n` satisfies
`0 ≤ n ≤ max_iter` (the lower bound holds as `n : ℕ`), and whenever
`n = max_iter` the pixel's colour is exactly black `vec(0,0,0)`, whatever the
selected colormap is. -/
theorem c3_escape_time_bounded_and_interior_black
    (max_iter : ℕ) (vp : Dims) (height width px py : ℕ) (cmap : String) :
    escape_count max_iter (pixel_point vp height width px py).1
        (pixel_point vp height width px py).2 ≤ max_iter ∧
    (escape_count max_iter (pixel_point vp height width px py).1
        (pixel_point vp height width px py).2 = max_iter →
      pixel_color max_iter
        (escape_count max_iter (pixel_point vp height width px py).1
          (pixel_point vp height width px py).2) cmap = ⟨0, 0, 0⟩) := by
  refine ⟨escape_steps_le _ _ _ _ _, fun h => ?_⟩
  rw [pixel_color, if_pos h]

/-- Witness for C3: on the viewport `[-1,1]×[-1,1]` with a 2×2 grid, pixel
`(1,1)` maps to `c = 0`, which never escapes, so with `max_iter = 1` the count
is `1 = max_iter` and the colour is black. -/
theorem c3_escape_time_bounded_and_interior_black_witness :
    escape_count 1 (pixel_point ⟨-1, 1, -1, 1⟩ 2 2 1 1).1
        (pixel_point ⟨-1, 1, -1, 1⟩ 2 2 1 1).2 = 1 ∧
    pixel_color 1
        (escape_count 1 (pixel_point ⟨-1, 1, -1, 1⟩ 2 2 1 1).1
          (pixel_point ⟨-1, 1, -1, 1⟩ 2 2 1 1).2) "default" = ⟨0, 0, 0⟩ := by
  have h1 : escape_count 1 (pixel_point ⟨-1, 1, -1, 1⟩ 2 2 1 1).1
      (pixel_point ⟨-1, 1, -1, 1⟩ 2 2 1 1).2 = 1 := by
    norm_num [pixel_point, escape_count, escape_steps]
  exact ⟨h1,
    (c3_escape_time_bounded_and_interior_black 1 ⟨-1, 1, -1, 1⟩ 2 2 1 1 "default").2 h1⟩

/-- C10: the aspect-ratio-locking computation is total, in particular it is
well-defined when the pointer has the same x-coordinate as the drag start
(raw box width zero, as at the first sample or in a purely vertical drag):
under the program's JS float semantics `h/0 = +∞ > 3/2` for `h > 0` and
`0/0 = NaN ≯ 3/2`, so the corner is the uniform value computed here. -/
theorem c10_resize_box_total_at_zero_width (sx sy cy : ℚ) :
    resize_box_corner (sx, sy) (sx, cy) = (sx - |cy - sy| * (3 / 2), cy) := by
  simp only [resize_box_corner]
  split_ifs with h1 h2 h3
  · exact absurd h2 (lt_irrefl _)
  · refine Prod.ext ?_ ?_ <;> simp <;> ring
  all_goals {
    have h0 : |cy - sy| = 0 := by
      have hnn := abs_nonneg (cy - sy)
      simp only [sub_self, abs_zero, mul_zero] at h1
      by_contra hne
      exact h1 (by positivity)
    have hcy : cy = sy := by linarith [sub_eq_zero.mp (abs_eq_zero.mp h0)]
    refine Prod.ext ?_ ?_ <;> simp [h0, hcy] }

/-- C7 counterexample: dragging from (0,0) to (3,0) produces the aspect-locked
corner (3,-2), a box of width 3 and height 2 — its height:width ratio is 2:3,
not the 3:2 the claim states (2·height = 4 ≠ 9 = 3·width). -/
theorem c7_counterexample :
    resize_box_corner (0, 0) (3, 0) = (3, -2) ∧
    ¬ (2 * |(resize_box_corner (0, 0) (3, 0)).2 - 0| =
        3 * |(resize_box_corner (0, 0) (3, 0)).1 - 0|) := by
  have h : resize_box_corner ((0 : ℚ), (0 : ℚ)) ((3 : ℚ), (0 : ℚ)) = (3, -2) := by
    simp only [resize_box_corner]
    norm_num
  refine ⟨h, ?_⟩
  rw [h]
  norm_num

/-- C7 (amended): on every pointer sample the aspect-locked rectangle has its
ratio locked to height:width = 2:3 (equivalently width:height = 3:2) —
`3·height = 2·width` — by recomputing whichever dimension keeps that ratio
(one coordinate of the corner always follows the pointer), with the sign of
the drag direction selecting which way the recomputed corner moves. -/
theorem c7_aspect_ratio_locked (start current : ℚ × ℚ) :
    3 * |(resize_box_corner start current).2 - start.2| =
      2 * |(resize_box_corner start current).1 - start.1| ∧
    ((resize_box_corner start current).2 = current.2 ∨
     (resize_box_corner start current).1 = current.1) := by
  obtain ⟨sx, sy⟩ := start
  obtain ⟨cx, cy⟩ := current
  simp only [resize_box_corner]
  split_ifs with h1 h2 h3 <;> constructor
  · have he : sx + 1 * |cy - sy| * (3 / 2) - sx = |cy - sy| * (3 / 2) := by ring
    rw [he, abs_mul, abs_abs, abs_of_nonneg (by norm_num : (0:ℚ) ≤ 3 / 2)]
    ring
  · exact Or.inl rfl
  · have he : sx + -1 * |cy - sy| * (3 / 2) - sx = -(|cy - sy| * (3 / 2)) := by ring
    rw [he, abs_neg, abs_mul, abs_abs, abs_of_nonneg (by norm_num : (0:ℚ) ≤ 3 / 2)]
    ring
  · exact Or.inl rfl
  · have he : sy + 1 * |cx - sx| * (2 / 3) - sy = |cx - sx| * (2 / 3) := by ring
    rw [he, abs_mul, abs_abs, abs_of_nonneg (by norm_num : (0:ℚ) ≤ 2 / 3)]
    ring
  · exact Or.inr rfl
  · have he : sy + -1 * |cx - sx| * (2 / 3) - sy = -(|cx - sx| * (2 / 3)) := by ring
    rw [he, abs_neg, abs_mul, abs_abs, abs_of_nonneg (by norm_num : (0:ℚ) ≤ 2 / 3)]
    ring
  · exact Or.inr rfl

/-- C4: for every input vector with components in [0,1], `colormaps` computes,
for each of the five scheme names, exactly the formula the specification
states, and for any other scheme name it returns the `default` formula's
output (it is a total function, so no error is raised). -/
theorem c4_colormaps_match_spec (v : Vec3)
    (hx : 0 ≤ v.x ∧ v.x ≤ 1) (hy : 0 ≤ v.y ∧ v.y ≤ 1) (hz : 0 ≤ v.z ∧ v.z ≤ 1) :
    ∀ scheme : String, colormaps v scheme = colorOfSpec v scheme := by
  intro scheme
  by_cases h1 : scheme = "spectral"
  · subst h1; simp [colormaps, colorOfSpec]
  · by_cases h2 : scheme = "inferno"
    · subst h2
      simp [colormaps, colorOfSpec]
      ring
    · by_cases h3 : scheme = "viridis"
      · subst h3
        simp [colormaps, colorOfSpec]
        ring
      · by_cases h4 : scheme = "plasma"
        · subst h4
          simp [colormaps, colorOfSpec]
          ring
        · simp [colormaps, colorOfSpec, h1, h2, h3, h4]
          constructor
          · ring
          · ring

/-- Witness for C4 at the vector (0,0,0) and an unknown scheme name. -/
theorem c4_colormaps_match_spec_witness :
    colormaps ⟨0, 0, 0⟩ "magma" = colorOfSpec ⟨0, 0, 0⟩ "magma" :=
  c4_colormaps_match_spec ⟨0, 0, 0⟩ ⟨by norm_num, by norm_num⟩
    ⟨by norm_num, by norm_num⟩ ⟨by norm_num, by norm_num⟩ "magma"

-- ==== Concrete viewports used by the history scenarios (shared helpers) =====

/-- Initial viewport of the concrete history scenarios. -/
def vpA : Dims := ⟨0, 1, 0, 1⟩

/-- First zoom viewport of the concrete history scenarios. -/
def vpB : Dims := ⟨0, 2, 0, 2⟩

/-- Second zoom viewport of the concrete history scenarios. -/
def vpC : Dims := ⟨0, 3, 0, 3⟩

/-- Third zoom viewport of the concrete history scenarios. -/
def vpD : Dims := ⟨0, 4, 0, 4⟩

/-- C1 counterexample: start at `vpA` (1×1 grid), drag-zoom to `vpB`, undo
(redo stack becomes `[vpB]`), then make a fresh drag-selection zoom to `vpC`
via `change_parameters`: immediately after the zoom completes the redo stack
is still `[vpB]`, not empty — `change_parameters` never clears it. -/
theorem c1_counterexample :
    ((mandelbrot_init 100 vpA (1, 1) "default").bind
        (run_ops [.zoom vpB, .undoRedo false, .zoom vpC])).map
      MandelState.dimensions_redo_list = some [vpB] ∧
    ([vpB] : List Dims) ≠ [] := by
  constructor
  · decide
  · decide

/-- C1 (amended): `change_parameters` leaves the redo stack exactly as it
was — immediately after a fresh zoom the RedoStack equals its value before
the zoom (so it is empty only when it was already empty, e.g. when no undo
preceded any zoom); the source never clears it. -/
theorem c1_amended_redo_stack_unchanged {m : ℕ} {d : Dims} {r : ℕ × ℕ}
    {c : String} {s s' : MandelState} (h : change_parameters m d r c s = some s') :
    s'.dimensions_redo_list = s.dimensions_redo_list :=
  (change_parameters_fields h).2.2.2.2.2.2.1

/-- Witness for the amended C1 at a concrete fresh zoom. -/
theorem c1_amended_redo_stack_unchanged_witness :
    (⟨100, vpB, 1, 1, "default", [vpA, vpB], [], true, 0, 1, 0, 0, 2⟩ :
        MandelState).dimensions_redo_list =
      (⟨100, vpA, 1, 1, "default", [vpA], [], true, 0, 1, 0, 0, 1⟩ :
        MandelState).dimensions_redo_list :=
  @c1_amended_redo_stack_unchanged 100 vpB (1, 1) "default"
    ⟨100, vpA, 1, 1, "default", [vpA], [], true, 0, 1, 0, 0, 1⟩
    ⟨100, vpB, 1, 1, "default", [vpA, vpB], [], true, 0, 1, 0, 0, 2⟩
    (by decide)

-- ==== Concrete states for the exhausted-history scenario (shared helpers) ===

/-- Reachable state after init at `vpA`, zoom to `vpB` (1×1 grid). -/
def sAfterZoom : MandelState :=
  ⟨100, vpB, 1, 1, "default", [vpA, vpB], [], true, 0, 1, 0, 0, 2⟩

/-- Reachable state after additionally undoing once: undo list is down to the
initial-view floor and the redo list holds `vpB`. -/
def sExhausted : MandelState :=
  ⟨100, vpA, 1, 1, "default", [vpA], [vpB], true, 0, 1, 0, 0, 3⟩

/-- `sExhausted` with the `loaded` flag stuck at `False`. -/
def sStuck : MandelState :=
  ⟨100, vpA, 1, 1, "default", [vpA], [vpB], false, 0, 1, 0, 0, 3⟩

/-- C5 (code bug exhibited): `sExhausted` is reachable (init, zoom, undo);
pressing Undo there — undo stack exhausted at one entry, redo available — is
NOT the claimed silent no-op: `load_recent_dimensions` sets `loaded = False`
before noticing the stack is exhausted and returns without restoring it.  The
viewport and both stacks are indeed unchanged, but the busy flag flips, and
afterwards every interaction entry point (zoom, depth change, even Redo)
no-ops forever.  The same happens for Redo with an empty redo stack from
`sAfterZoom`. -/
theorem c5_exhausted_history_wedges_loaded_flag :
    (mandelbrot_init 100 vpA (1, 1) "default").bind
        (run_ops [.zoom vpB, .undoRedo false]) = some sExhausted ∧
    recall_mandelbrot_dimensions false sExhausted = some sStuck ∧
    sStuck = { sExhausted with loaded := false } ∧
    sExhausted.loaded = true ∧ sStuck.loaded = false ∧
    recall_mandelbrot_dimensions true sAfterZoom =
      some { sAfterZoom with loaded := false } ∧
    apply_op (.zoom vpC) sStuck = some sStuck ∧
    apply_op (.depth 50) sStuck = some sStuck ∧
    apply_op (.dimsText "0, 9, 0, 9") sStuck = some sStuck ∧
    apply_op (.undoRedo true) sStuck = some sStuck := by
  refine ⟨by decide, by decide, by decide, by decide, by decide, by decide,
    by decide, by decide, ?_, by decide⟩
  decide

/-- C2: whenever undo is possible (undo list of length ≥ 2, current viewport
on top of it), `undo()` immediately followed by `redo()` — both through
`load_recent_dimensions` with the current settings, as the Undo/Redo buttons
do — restores the viewport current before the undo, and in fact both history
stacks; and in the concrete Scenario D, after three sequential zooms
`vpB, vpC, vpD`, two undos and one redo, the viewport is `vpC` (= Z2). -/
theorem c2_undo_then_redo_round_trip :
    (∀ s s1 s2 : MandelState,
        2 ≤ s.dimensions_undo_list.length →
        (∃ t, s.dimensions_undo_list = t ++ [s.dims]) →
        load_recent_dimensions false s.max_iter (s.height, s.width) s.colormap s = some s1 →
        load_recent_dimensions true s1.max_iter (s1.height, s1.width) s1.colormap s1 = some s2 →
        s2.dims = s.dims ∧
        s2.dimensions_undo_list = s.dimensions_undo_list ∧
        s2.dimensions_redo_list = s.dimensions_redo_list) ∧
    ((mandelbrot_init 100 vpA (1, 1) "default").bind
        (run_ops [.zoom vpB, .zoom vpC, .zoom vpD,
                  .undoRedo false, .undoRedo false, .undoRedo true])).map
      MandelState.dims = some vpC := by
  constructor
  · intro s s1 s2 hlen hcur hu hr
    obtain ⟨t, ht⟩ := hcur
    have htne : t ≠ [] := by
      intro hnil
      rw [ht, hnil] at hlen
      simp at hlen
    obtain ⟨t2, p, hp2, he2⟩ := pyPop_of_ne_nil htne
    have hpop1 : pyPop s.dimensions_undo_list = some (t, s.dims) := by
      rw [ht]; exact pyPop_append t s.dims
    simp only [load_recent_dimensions] at hu
    rw [if_neg (by simp)] at hu
    rw [if_neg (by simp; omega)] at hu
    simp only [hpop1, hp2] at hu
    have f1 := change_parameters_fields hu
    simp only at f1
    obtain ⟨f1m, f1d, f1h, f1w, f1c, f1u, f1r, f1l, f1n⟩ := f1
    simp only [load_recent_dimensions] at hr
    rw [if_pos trivial] at hr
    have hpop3 : pyPop s1.dimensions_redo_list =
        some (s.dimensions_redo_list, s.dims) := by
      rw [f1r]; exact pyPop_append _ _
    simp only [hpop3] at hr
    have f2 := change_parameters_fields hr
    simp only at f2
    obtain ⟨f2m, f2d, f2h, f2w, f2c, f2u, f2r, f2l, f2n⟩ := f2
    refine ⟨f2d, ?_, f2r⟩
    rw [f2u, f1u, ht, ← he2]
  · decide

/-- Witness for C2's round-trip law at the reachable state `sAfterZoom`. -/
theorem c2_undo_then_redo_round_trip_witness :
    (⟨100, vpB, 1, 1, "default", [vpA, vpB], [], true, 0, 1, 0, 0, 4⟩ :
        MandelState).dims = sAfterZoom.dims ∧
    (⟨100, vpB, 1, 1, "default", [vpA, vpB], [], true, 0, 1, 0, 0, 4⟩ :
        MandelState).dimensions_undo_list = sAfterZoom.dimensions_undo_list ∧
    (⟨100, vpB, 1, 1, "default", [vpA, vpB], [], true, 0, 1, 0, 0, 4⟩ :
        MandelState).dimensions_redo_list = sAfterZoom.dimensions_redo_list :=
  c2_undo_then_redo_round_trip.1 sAfterZoom sExhausted
    ⟨100, vpB, 1, 1, "default", [vpA, vpB], [], true, 0, 1, 0, 0, 4⟩
    (by decide) ⟨[vpA], by decide⟩ (by decide) (by decide)

/-- C9: an accepted depth (range `[1,1000]`), colormap, or resolution change
triggers exactly one re-render that preserves the current viewport bounds
(given the reachable-state invariant that the top of the undo stack is the
current viewport: the handler pops the current dimensions off the undo stack
and the re-render pushes the same dimensions back), and leaves both history
stacks' contents equal to their values before the change. -/
theorem c9_settings_changes_preserve_view_and_history (s : MandelState)
    (hl : s.loaded = true)
    (hcur : ∃ t, s.dimensions_undo_list = t ++ [s.dims]) :
    (∀ (n : ℤ) (s' : MandelState), 1 ≤ n → n ≤ 1000 →
        change_search_depth n s = some s' →
        s'.dims = s.dims ∧
        s'.dimensions_undo_list = s.dimensions_undo_list ∧
        s'.dimensions_redo_list = s.dimensions_redo_list ∧
        s'.max_iter = n.toNat ∧ s'.height = s.height ∧ s'.width = s.width ∧
        s'.colormap = s.colormap ∧ s'.renders_done = s.renders_done + 1) ∧
    (∀ (c : String) (s' : MandelState),
        change_colormap c s = some s' →
        s'.dims = s.dims ∧
        s'.dimensions_undo_list = s.dimensions_undo_list ∧
        s'.dimensions_redo_list = s.dimensions_redo_list ∧
        s'.max_iter = s.max_iter ∧ s'.height = s.height ∧ s'.width = s.width ∧
        s'.colormap = c ∧ s'.renders_done = s.renders_done + 1) ∧
    (∀ (i : Fin 6) (s' : MandelState),
        change_resolution i s = some s' →
        s'.dims = s.dims ∧
        s'.dimensions_undo_list = s.dimensions_undo_list ∧
        s'.dimensions_redo_list = s.dimensions_redo_list ∧
        s'.max_iter = s.max_iter ∧ (s'.height, s'.width) = resolution_choice i ∧
        s'.colormap = s.colormap ∧ s'.renders_done = s.renders_done + 1) := by
  obtain ⟨t, ht⟩ := hcur
  have hpop : pyPop s.dimensions_undo_list = some (t, s.dims) := by
    rw [ht]; exact pyPop_append _ _
  refine ⟨?_, ?_, ?_⟩
  · intro n s' h1 h1000 h
    rw [change_search_depth] at h
    rw [if_neg (by simp [hl])] at h
    rw [if_neg (by omega)] at h
    simp only [hpop] at h
    have f := change_parameters_fields h
    simp only at f
    obtain ⟨fm, fd, fh, fw, fc, fu, fr, fl, fn⟩ := f
    exact ⟨fd, by rw [fu, ht], fr, fm, fh, fw, fc, fn⟩
  · intro c s' h
    rw [change_colormap] at h
    rw [if_neg (by simp [hl])] at h
    simp only [hpop] at h
    have f := change_parameters_fields h
    simp only at f
    obtain ⟨fm, fd, fh, fw, fc, fu, fr, fl, fn⟩ := f
    exact ⟨fd, by rw [fu, ht], fr, fm, fh, fw, fc, fn⟩
  · intro i s' h
    rw [change_resolution] at h
    rw [if_neg (by simp [hl])] at h
    simp only [hpop] at h
    have f := change_parameters_fields h
    simp only at f
    obtain ⟨fm, fd, fh, fw, fc, fu, fr, fl, fn⟩ := f
    exact ⟨fd, by rw [fu, ht], fr, fm, by rw [fh, fw], fc, fn⟩

/-- Witness for C9: accepted depth change to 50 at `sAfterZoom`. -/
theorem c9_settings_changes_preserve_view_and_history_witness :
    (⟨50, vpB, 1, 1, "default", [vpA, vpB], [], true, 0, 1, 0, 0, 3⟩ :
        MandelState).dims = sAfterZoom.dims ∧
    (⟨50, vpB, 1, 1, "default", [vpA, vpB], [], true, 0, 1, 0, 0, 3⟩ :
        MandelState).dimensions_undo_list = sAfterZoom.dimensions_undo_list ∧
    (⟨50, vpB, 1, 1, "default", [vpA, vpB], [], true, 0, 1, 0, 0, 3⟩ :
        MandelState).dimensions_redo_list = sAfterZoom.dimensions_redo_list ∧
    (⟨50, vpB, 1, 1, "default", [vpA, vpB], [], true, 0, 1, 0, 0, 3⟩ :
        MandelState).max_iter = (50 : ℤ).toNat ∧
    (⟨50, vpB, 1, 1, "default", [vpA, vpB], [], true, 0, 1, 0, 0, 3⟩ :
        MandelState).height = sAfterZoom.height ∧
    (⟨50, vpB, 1, 1, "default", [vpA, vpB], [], true, 0, 1, 0, 0, 3⟩ :
        MandelState).width = sAfterZoom.width ∧
    (⟨50, vpB, 1, 1, "default", [vpA, vpB], [], true, 0, 1, 0, 0, 3⟩ :
        MandelState).colormap = sAfterZoom.colormap ∧
    (⟨50, vpB, 1, 1, "default", [vpA, vpB], [], true, 0, 1, 0, 0, 3⟩ :
        MandelState).renders_done = sAfterZoom.renders_done + 1 :=
  (c9_settings_changes_preserve_view_and_history sAfterZoom (by decide)
      ⟨[vpA], by decide⟩).1 50
    ⟨50, vpB, 1, 1, "default", [vpA, vpB], [], true, 0, 1, 0, 0, 3⟩
    (by decide) (by decide) (by decide)

/-- C6: for every dimensions text string (and every token parser): if it does
not parse to exactly 4 numeric tokens with `x_min < x_max` and
`y_min < y_max`, it is rejected — "Invalid dimensions." is reported (the
`true` flag) and the whole state is left unchanged; if it does parse, the
parsed viewport satisfies the bound constraints and is applied through
`change_parameters`, which installs it as the viewport and triggers exactly
one render. -/
theorem c6_image_dimensions_validation (parse : String → Option ℚ) (text : String)
    (s : MandelState) (hl : s.loaded = true) :
    (parse_image_dimensions parse text = none →
        change_image_dimensions parse text s = some (s, true)) ∧
    (∀ d : Dims, parse_image_dimensions parse text = some d →
        d.x_min < d.x_max ∧ d.y_min < d.y_max ∧
        ∀ s' : MandelState,
          change_parameters s.max_iter d (s.height, s.width) s.colormap s = some s' →
          change_image_dimensions parse text s = some (s', false) ∧
          s'.dims = d ∧ s'.renders_done = s.renders_done + 1) := by
  constructor
  · intro hp
    rw [change_image_dimensions, if_neg (by simp [hl]), hp]
  · intro d hp
    have hbounds : d.x_min < d.x_max ∧ d.y_min < d.y_max := by
      rw [parse_image_dimensions] at hp
      split at hp
      · cases hp
      · rename_i a b c dd
        split at hp
        · cases hp
        · rename_i hord
          obtain rfl := Option.some.inj hp
          push_neg at hord
          exact hord
      · cases hp
    refine ⟨hbounds.1, hbounds.2, ?_⟩
    intro s' hcp
    have f := change_parameters_fields hcp
    refine ⟨?_, f.2.1, f.2.2.2.2.2.2.2.2⟩
    rw [change_image_dimensions, if_neg (by simp [hl])]
    simp only [hp]
    rw [hcp]
    rfl

/-- Viewport parsed from the Scenario B text `"-2.5, 1.0, -1.25, 1.25"`. -/
def vpText : Dims := ⟨-5/2, 1, -5/4, 5/4⟩

theorem pyFloat_text1 : pyFloat? "-2.5" = some (-5/2) := by
  have hp : pyFloatParts "-2.5" = some (true, 2, 5, 1) := by decide
  simp only [pyFloat?, hp]
  norm_num

theorem pyFloat_text2 : pyFloat? " 1.0" = some 1 := by
  have hp : pyFloatParts " 1.0" = some (false, 1, 0, 1) := by decide
  simp only [pyFloat?, hp]
  norm_num

theorem pyFloat_text3 : pyFloat? " -1.25" = some (-5/4) := by
  have hp : pyFloatParts " -1.25" = some (true, 1, 25, 2) := by decide
  simp only [pyFloat?, hp]
  norm_num

theorem pyFloat_text4 : pyFloat? " 1.25" = some (5/4) := by
  have hp : pyFloatParts " 1.25" = some (false, 1, 25, 2) := by decide
  simp only [pyFloat?, hp]
  norm_num

theorem parse_scenarioB_good :
    parse_image_dimensions pyFloat? "-2.5, 1.0, -1.25, 1.25" = some vpText := by
  have hsplit : split "-2.5, 1.0, -1.25, 1.25" ',' =
      ["-2.5", " 1.0", " -1.25", " 1.25"] := by decide
  have hmap : (split "-2.5, 1.0, -1.25, 1.25" ',').mapM pyFloat? =
      some [-5/2, 1, -5/4, 5/4] := by
    rw [hsplit]
    simp [List.mapM.loop, pyFloat_text1, pyFloat_text2,
      pyFloat_text3, pyFloat_text4]
  rw [parse_image_dimensions]
  simp only [hmap]
  rw [if_neg (by norm_num)]
  rfl

theorem parse_scenarioB_bad :
    parse_image_dimensions pyFloat? "-2.5, 1.0" = none := by
  have hsplit : split "-2.5, 1.0" ',' = ["-2.5", " 1.0"] := by decide
  have hmap : (split "-2.5, 1.0" ',').mapM pyFloat? = some [-5/2, 1] := by
    rw [hsplit]
    simp [List.mapM.loop, pyFloat_text1, pyFloat_text2]
  rw [parse_image_dimensions]
  simp only [hmap]

/-- State after applying the Scenario B text at `sAfterZoom`. -/
def sAfterText : MandelState :=
  ⟨100, vpText, 1, 1, "default", [vpA, vpB, vpText], [], true, 0, 1, 0, 0, 3⟩

theorem change_parameters_scenarioB :
    change_parameters 100 vpText (1, 1) "default" sAfterZoom = some sAfterText := by
  rw [change_parameters_eq]
  rw [if_pos (by decide)]
  rfl

/-- Witness for C6: the Scenario B texts at the reachable state `sAfterZoom` —
`"-2.5, 1.0"` is rejected with the message and no state change;
`"-2.5, 1.0, -1.25, 1.25"` applies the viewport `{-2.5, 1.0, -1.25, 1.25}`
and triggers a render. -/
theorem c6_image_dimensions_validation_witness :
    change_image_dimensions pyFloat? "-2.5, 1.0" sAfterZoom =
      some (sAfterZoom, true) ∧
    change_image_dimensions pyFloat? "-2.5, 1.0, -1.25, 1.25" sAfterZoom =
      some (sAfterText, false) ∧
    sAfterText.dims = vpText ∧
    sAfterText.renders_done = sAfterZoom.renders_done + 1 := by
  have h1 := (c6_image_dimensions_validation pyFloat? "-2.5, 1.0" sAfterZoom
    (by decide)).1 parse_scenarioB_bad
  have h2 := ((c6_image_dimensions_validation pyFloat? "-2.5, 1.0, -1.25, 1.25"
      sAfterZoom (by decide)).2 vpText parse_scenarioB_good).2.2
    sAfterText change_parameters_scenarioB
  exact ⟨h1, h2.1, h2.2.1, h2.2.2⟩

/-- C8: (1) across every sequence of user operations the total count of
geometry objects — pool plus active, separately for vertices and for quads —
never decreases; (2) starting from `__init__` at any preset resolution, every
sequence of user operations (each render recycles all active objects, grows
the pool to the grid size, then acquires one vertex per pixel and one quad
per interior cell) runs without any acquire ever failing, for every sequence
of resolution changes among the presets. -/
theorem c8_pool_monotone_and_acquire_never_fails :
    (∀ (ops : List UserOp) (s s' : MandelState), run_ops ops s = some s' →
        s.existing_vertices + s.rendered_vertices ≤
          s'.existing_vertices + s'.rendered_vertices ∧
        s.existing_quads + s.rendered_quads ≤
          s'.existing_quads + s'.rendered_quads) ∧
    (∀ (k : Fin 6) (d : Dims) (c : String) (m : ℕ) (s0 : MandelState),
        mandelbrot_init m d (resolution_choice k) c = some s0 →
        ∀ ops : List UserOp, run_ops ops s0 ≠ none) := by
  constructor
  · intro ops s s' h
    exact run_ops_mono h
  · intro k d c m s0 hinit ops
    obtain ⟨s0', hinit', hInv⟩ := mandelbrot_init_inv m d k c
    rw [hinit] at hinit'
    obtain rfl := Option.some.inj hinit'
    obtain ⟨s', hrun, _⟩ := run_ops_preserves ops hInv
    rw [hrun]
    simp

/-- The `__init__` state at the smallest preset (30×45). -/
def sInit30 : MandelState :=
  ⟨100, vpA, 30, 45, "default", [vpA], [], true, 0, 1350, 29, 1276, 1⟩

theorem mandelbrot_init_30 :
    mandelbrot_init 100 vpA (resolution_choice 0) "default" = some sInit30 := by
  show load_new_mandelbrot
      (load_fresh_objects (30 * 45)
        ⟨100, vpA, 30, 45, "default", [vpA], [], false, 0, 0, 0, 0, 0⟩) = some sInit30
  rw [load_fresh_objects_eq]
  rw [load_new_mandelbrot]
  rw [if_pos (by decide)]
  decide

/-- Witness for C8: a concrete one-operation run from the concrete 30×45
initial state and the monotonicity instance for the empty run. -/
theorem c8_pool_monotone_and_acquire_never_fails_witness :
    (sAfterZoom.existing_vertices + sAfterZoom.rendered_vertices ≤
        sAfterZoom.existing_vertices + sAfterZoom.rendered_vertices ∧
      sAfterZoom.existing_quads + sAfterZoom.rendered_quads ≤
        sAfterZoom.existing_quads + sAfterZoom.rendered_quads) ∧
    run_ops [UserOp.depth 50] sInit30 ≠ none := by
  constructor
  · exact c8_pool_monotone_and_acquire_never_fails.1 [] sAfterZoom sAfterZoom rfl
  · exact c8_pool_monotone_and_acquire_never_fails.2 0 vpA "default" 100 sInit30
      mandelbrot_init_30 [UserOp.depth 50]
